import Mathlib

/-!
Verification development for the Falling Lanes game core
(`src/app/page.tsx`).  The per-frame simulation (score/difficulty update,
lane interpolation, obstacle spawning, falling/landing physics, the
sphere-vs-AABB collision test and the run state machine) is shallowly
embedded over `ℚ`.  The JavaScript constants are written as exact
rationals (`0.016 = 2/125`, `0.03 = 3/100`, …).

Modelling notes, faithful to the source:
* `three.js` meshes keep their default unit scale: `spawnObstacle` sets
  only `mesh.position`, never `mesh.scale`, so `mesh.scale.y = 1` for
  every spawned obstacle.  The landing threshold in the source reads
  `0.5 + o.mesh.scale.y / 2` (page.tsx:493), so we carry `scaleY`
  explicitly in the obstacle record.
* The random draws of `spawnObstacle` (`Math.random()` calls for lane,
  extents, drop height and depth) are supplied as an explicit
  `SpawnParams` oracle argument, one per frame.
* Purely cosmetic state (camera, trail, emissive pulse, rain streaks,
  speed lines, the lane-colour rotation, and the small `sin` wobble of
  landed obstacles) is not modelled: per the spec no gameplay state
  depends on it, and none of the claims mention it.  Consequently the
  bounding box of an obstacle is the axis-aligned box of its unrotated
  extents.
* `dt` is the already-clamped frame delta computed by the driver.
-/

namespace FallingLanes

/-- The `Math.random()` draws consumed by one call of `spawnObstacle`
(page.tsx:273-313): lane choice `Math.floor(random*3)` and the unit
draws for width, height, depth, drop height and spawn depth. -/
structure SpawnParams where
  lane : ℕ
  wR : ℚ
  hR : ℚ
  dR : ℚ
  yR : ℚ
  zR : ℚ

/-- A spawner oracle that always returns zero draws. -/
def zeroParams : SpawnParams := ⟨0, 0, 0, 0, 0, 0⟩

/-- One obstacle (page.tsx:6-12 plus the mesh fields the simulation
reads): geometric extents `width/height/depth` (the `BoxGeometry`
arguments), the mesh scale `scaleY` (always `1` for spawned meshes),
position, vertical velocity and the `falling`/`landed` flags. -/
structure Obstacle where
  laneIndex : ℕ
  width : ℚ
  height : ℚ
  depth : ℚ
  scaleY : ℚ
  posX : ℚ
  posY : ℚ
  posZ : ℚ
  vy : ℚ
  falling : Bool
  landed : Bool

/-- An axis-aligned box, as produced by `Box3.setFromObject`. -/
structure Box3 where
  minX : ℚ
  minY : ℚ
  minZ : ℚ
  maxX : ℚ
  maxY : ℚ
  maxZ : ℚ

/-- `THREE.MathUtils.clamp(value, lo, hi) = max(lo, min(hi, value))`. -/
def clamp (value lo hi : ℚ) : ℚ := max lo (min hi value)

/-- `THREE.MathUtils.lerp(x, y, t) = x + (y - x) * t`. -/
def lerp (x y t : ℚ) : ℚ := x + (y - x) * t

/-- The smoothstep easing computed inline at page.tsx:432:
`smooth = tNorm * tNorm * (3 - 2 * tNorm)`. -/
def smoothstepVal (t : ℚ) : ℚ := t * t * (3 - 2 * t)

/-- World bounding box of an obstacle's mesh (`Box3.setFromObject`):
the geometry extents scaled by the mesh scale (unit scale on x and z,
`scaleY` on y), centred at the mesh position. -/
def Obstacle.box (o : Obstacle) : Box3 :=
  { minX := o.posX - o.width / 2
    minY := o.posY - o.height * o.scaleY / 2
    minZ := o.posZ - o.depth / 2
    maxX := o.posX + o.width / 2
    maxY := o.posY + o.height * o.scaleY / 2
    maxZ := o.posZ + o.depth / 2 }

/-- `intersectsCube` (page.tsx:382-397): clamp the player position to
the box on each axis and compare the squared distance with the squared
radius (strict `<`). -/
def intersectsCube (b : Box3) (px py pz radius : ℚ) : Bool :=
  let cx := clamp px b.minX b.maxX
  let cy := clamp py b.minY b.maxY
  let cz := clamp pz b.minZ b.maxZ
  let dx := cx - px
  let dy := cy - py
  let dz := cz - pz
  decide (dx * dx + dy * dy + dz * dz < radius * radius)

/-- Per-obstacle physics for one frame (page.tsx:488-508).
Falling: `vy += -25*dt`, `y += vy*dt`, drift `z += forward*0.3`, and
when `y ≤ 0.5 + scale.y/2` clamp, stop falling, mark landed, zero `vy`.
Landed: slide forward by the full `forward` distance.
(The cosmetic y-rotation wobble of landed obstacles is not modelled.) -/
def stepObstacle (dt forward : ℚ) (o : Obstacle) : Obstacle :=
  if o.falling && !o.landed then
    let vy := o.vy + (-25) * dt
    let y := o.posY + vy * dt
    let z := o.posZ + forward * (3 / 10)
    if y ≤ 1 / 2 + o.scaleY / 2 then
      { o with vy := 0, posY := 1 / 2 + o.scaleY / 2, posZ := z,
               falling := false, landed := true }
    else
      { o with vy := vy, posY := y, posZ := z }
  else if o.landed then
    { o with posZ := o.posZ + forward }
  else o

/-- The obstacle update loop (page.tsx:485-528), which iterates from the
END of the array: the argument list is in processing order (the reverse
of the stored array).  Each obstacle is stepped; if its `z` passed the
removal threshold `10` it is dropped; if it intersects the player the
loop breaks (`endGame`), leaving the not-yet-visited obstacles of this
frame untouched.  Returns the surviving obstacles (still in processing
order) and whether a collision was found. -/
def processRev (dt forward px py pz : ℚ) : List Obstacle → List Obstacle × Bool
  | [] => ([], false)
  | o :: rest =>
    let o' := stepObstacle dt forward o
    if 10 < o'.posZ then
      processRev dt forward px py pz rest
    else if intersectsCube o'.box px py pz (7 / 10) then
      (o' :: rest, true)
    else
      let r := processRev dt forward px py pz rest
      (o' :: r.1, r.2)

/-- The whole mutable game state (page.tsx:22-48 and the player mesh
position), plus an explicit model of the persistence collaborator:
`storedTop` is the value held by the external store and `persistCount`
counts `saveTopScore` calls. -/
structure GameState where
  running : Bool
  paused : Bool
  gameOver : Bool
  laneIndex : ℕ
  laneStartX : ℚ
  laneTargetX : ℚ
  laneT : ℚ
  laneDuration : ℚ
  playerX : ℚ
  playerY : ℚ
  playerZ : ℚ
  speed : ℚ
  difficulty : ℚ
  spawnTimer : ℚ
  spawnInterval : ℚ
  score : ℚ
  topScore : ℚ
  obstacles : List Obstacle
  blocksSpawned : ℕ
  storedTop : ℤ
  persistCount : ℕ

/-- The fixed lane x-positions `LANES = [-3, 0, 3]` (page.tsx:50). -/
def LANES : List ℚ := [-3, 0, 3]

/-- `tryMoveLane` (page.tsx:259-271): bail out when `gameOver` or when
the new index leaves `[0, 2]`; otherwise commit the new index, capture
the player's current world x as the interpolation start, target the new
lane's fixed position and restart the interpolation clock.  (The two
`spawnSpeedLine` calls are cosmetic.) -/
def tryMoveLane (delta : ℤ) (s : GameState) : GameState :=
  if s.gameOver then s
  else
    let newIndex : ℤ := (s.laneIndex : ℤ) + delta
    if newIndex < 0 ∨ 2 < newIndex then s
    else
      { s with laneIndex := newIndex.toNat,
               laneStartX := s.playerX,
               laneTargetX := LANES.getD newIndex.toNat 0,
               laneT := 0 }

/-- `spawnObstacle` (page.tsx:273-313): random lane, extents drawn from
`base + random * range * difficultyFactor` with
`difficultyFactor = min(2, 0.8 + difficulty*0.1)`, drop height
`8 + random*3`, spawn depth `-40 - random*20`; the new mesh keeps the
default unit scale.  (The lane-colour rotation side effect is
cosmetic.) -/
def spawnObstacle (difficulty : ℚ) (p : SpawnParams) : Obstacle :=
  let difficultyFactor := min 2 (4 / 5 + difficulty * (1 / 10))
  { laneIndex := p.lane
    width := 4 / 5 + p.wR * (3 / 2) * difficultyFactor
    height := 4 / 5 + p.hR * (6 / 5) * difficultyFactor
    depth := 4 / 5 + p.dR * (3 / 2) * difficultyFactor
    scaleY := 1
    posX := LANES.getD p.lane 0
    posY := 8 + p.yR * 3
    posZ := -40 - p.zR * 20
    vy := 0
    falling := true
    landed := false }

/-- `endGame` (page.tsx:357-370): set `gameOver`, stop running, and when
the raw `score` exceeds `topScore`, take it over and persist
`Math.floor(topScore)` to the external store (one `setItem` call). -/
def endGame (s : GameState) : GameState :=
  let s1 := { s with gameOver := true, running := false }
  if s1.topScore < s1.score then
    { s1 with topScore := s1.score,
              storedTop := ⌊s1.score⌋,
              persistCount := s1.persistCount + 1 }
  else s1

/-- Lane interpolation step (page.tsx:428-440): while
`laneT < laneDuration`, advance `laneT` by `dt` and place the player by
smoothstep easing over `min(1, laneT/laneDuration)`; otherwise snap the
player exactly to `laneTargetX`. -/
def laneAdvance (dt : ℚ) (s : GameState) : GameState :=
  if s.laneT < s.laneDuration then
    let laneT := s.laneT + dt
    let tNorm := min 1 (laneT / s.laneDuration)
    { s with laneT := laneT,
             playerX := lerp s.laneStartX s.laneTargetX (smoothstepVal tNorm) }
  else
    { s with playerX := s.laneTargetX }

/-- The score/difficulty, lane and spawner stages of a running frame
(page.tsx:420-482), in source order: score accrual at the old
difficulty, then the difficulty advance and the derived `speed` and
`spawnInterval`, then lane interpolation, then the spawn timer check
(strict `spawnTimer > spawnInterval`, reset to `0` on fire). -/
def simStage (p : SpawnParams) (dt : ℚ) (s : GameState) : GameState :=
  let score := s.score + dt * (8 + s.difficulty * 2)
  let difficulty := s.difficulty + dt * (3 / 100)
  let speed := 6 + difficulty * 4
  let spawnInterval := max (1 / 2) (6 / 5 - difficulty * (1 / 20))
  let s1 := laneAdvance dt { s with score := score, difficulty := difficulty,
                                    speed := speed, spawnInterval := spawnInterval }
  let spawnTimer := s1.spawnTimer + dt
  if spawnInterval < spawnTimer then
    { s1 with spawnTimer := 0,
              obstacles := s1.obstacles ++ [spawnObstacle difficulty p],
              blocksSpawned := s1.blocksSpawned + 1 }
  else
    { s1 with spawnTimer := spawnTimer }

/-- One full frame of `loop` (page.tsx:399-561) at frame delta `dt`:
an early return when not running or paused, or when game over; else the
simulation stages, the obstacle loop (iterated from the end of the
array) and, on a collision, `endGame`.  Rendering-only work is
omitted. -/
def frameStep (p : SpawnParams) (dt : ℚ) (s : GameState) : GameState :=
  if !s.running || s.paused then s
  else if s.gameOver then s
  else
    let s2 := simStage p dt s
    let forward := s2.speed * dt
    let pr := processRev dt forward s2.playerX s2.playerY s2.playerZ s2.obstacles.reverse
    let s3 := { s2 with obstacles := pr.1.reverse }
    if pr.2 then endGame s3 else s3

/-- `n` frames at a constant `dt`, frame `k` consuming `oracle k`. -/
def stepN (oracle : ℕ → SpawnParams) (dt : ℚ) : ℕ → GameState → GameState
  | 0, s => s
  | n + 1, s => frameStep (oracle n) dt (stepN oracle dt n s)

/-- A frame sequence given explicitly as (spawn draws, dt) pairs. -/
def runSeq (l : List (SpawnParams × ℚ)) (s : GameState) : GameState :=
  l.foldl (fun s pd => frameStep pd.1 pd.2 s) s

/-- Iterated per-obstacle physics over a list of `(dt, forward)`. -/
def iterObstacle (l : List (ℚ × ℚ)) (o : Obstacle) : Obstacle :=
  l.foldl (fun o df => stepObstacle df.1 df.2 o) o

/-- The state right after `startGame`/`resetWorld` (page.tsx:232-257,
315-355): running, centre lane, player at `(0, 0.5, 2)`, speed 6,
difficulty 1, spawn interval 1.2, no obstacles. -/
def freshRun (topScore : ℚ) (storedTop : ℤ) : GameState :=
  { running := true, paused := false, gameOver := false
    laneIndex := 1, laneStartX := 0, laneTargetX := 0
    laneT := 0, laneDuration := 1 / 10
    playerX := 0, playerY := 1 / 2, playerZ := 2
    speed := 6, difficulty := 1
    spawnTimer := 0, spawnInterval := 6 / 5
    score := 0, topScore := topScore
    obstacles := [], blocksSpawned := 0
    storedTop := storedTop, persistCount := 0 }

/-- The spec's run-state phases, derived from the three booleans. -/
inductive Phase where
  | Idle
  | Running
  | Paused
  | GameOver
deriving DecidableEq

/-- Phase of a game state: `gameOver` wins, else not running is `Idle`,
else `paused`, else `Running`. -/
def GameState.phase (s : GameState) : Phase :=
  if s.gameOver then Phase.GameOver
  else if !s.running then Phase.Idle
  else if s.paused then Phase.Paused
  else Phase.Running

/-- The scene's ground plane sits at `y = 0` (page.tsx:112-119). -/
def groundLevel : ℚ := 0

/-- Modelled from the spec's words for the collision contract (§4.4):
the closest point of an axis-aligned box to a point, obtained by
clamping each coordinate to the box's min/max on that axis. -/
def specClosestPoint (b : Box3) (px py pz : ℚ) : ℚ × ℚ × ℚ :=
  (max b.minX (min b.maxX px), max b.minY (min b.maxY py), max b.minZ (min b.maxZ pz))

/-- Modelled from the spec's words (C1): resting height of an obstacle
is ground level plus half of that obstacle's own height. -/
def specRestingHeight (o : Obstacle) : ℚ := groundLevel + o.height / 2

/-- Translation of an axis-aligned box by a vector. -/
def Box3.translate (b : Box3) (vx vy vz : ℚ) : Box3 :=
  { minX := b.minX + vx, minY := b.minY + vy, minZ := b.minZ + vz
    maxX := b.maxX + vx, maxY := b.maxY + vy, maxZ := b.maxZ + vz }

/-! ### Helper lemmas -/

theorem clamp_translate (p v lo hi : ℚ) :
    clamp (p + v) (lo + v) (hi + v) = clamp p lo hi + v := by
  unfold clamp
  rw [min_add_add_right, max_add_add_right]

@[simp] theorem laneAdvance_running (dt : ℚ) (s : GameState) :
    (laneAdvance dt s).running = s.running := by
  unfold laneAdvance; split <;> rfl

@[simp] theorem laneAdvance_paused (dt : ℚ) (s : GameState) :
    (laneAdvance dt s).paused = s.paused := by
  unfold laneAdvance; split <;> rfl

@[simp] theorem laneAdvance_gameOver (dt : ℚ) (s : GameState) :
    (laneAdvance dt s).gameOver = s.gameOver := by
  unfold laneAdvance; split <;> rfl

@[simp] theorem laneAdvance_spawnTimer (dt : ℚ) (s : GameState) :
    (laneAdvance dt s).spawnTimer = s.spawnTimer := by
  unfold laneAdvance; split <;> rfl

@[simp] theorem laneAdvance_spawnInterval (dt : ℚ) (s : GameState) :
    (laneAdvance dt s).spawnInterval = s.spawnInterval := by
  unfold laneAdvance; split <;> rfl

@[simp] theorem laneAdvance_difficulty (dt : ℚ) (s : GameState) :
    (laneAdvance dt s).difficulty = s.difficulty := by
  unfold laneAdvance; split <;> rfl

@[simp] theorem laneAdvance_speed (dt : ℚ) (s : GameState) :
    (laneAdvance dt s).speed = s.speed := by
  unfold laneAdvance; split <;> rfl

@[simp] theorem laneAdvance_score (dt : ℚ) (s : GameState) :
    (laneAdvance dt s).score = s.score := by
  unfold laneAdvance; split <;> rfl

@[simp] theorem laneAdvance_obstacles (dt : ℚ) (s : GameState) :
    (laneAdvance dt s).obstacles = s.obstacles := by
  unfold laneAdvance; split <;> rfl

@[simp] theorem laneAdvance_blocksSpawned (dt : ℚ) (s : GameState) :
    (laneAdvance dt s).blocksSpawned = s.blocksSpawned := by
  unfold laneAdvance; split <;> rfl

@[simp] theorem laneAdvance_laneTargetX (dt : ℚ) (s : GameState) :
    (laneAdvance dt s).laneTargetX = s.laneTargetX := by
  unfold laneAdvance; split <;> rfl

@[simp] theorem laneAdvance_laneDuration (dt : ℚ) (s : GameState) :
    (laneAdvance dt s).laneDuration = s.laneDuration := by
  unfold laneAdvance; split <;> rfl

@[simp] theorem laneAdvance_playerY (dt : ℚ) (s : GameState) :
    (laneAdvance dt s).playerY = s.playerY := by
  unfold laneAdvance; split <;> rfl

@[simp] theorem laneAdvance_playerZ (dt : ℚ) (s : GameState) :
    (laneAdvance dt s).playerZ = s.playerZ := by
  unfold laneAdvance; split <;> rfl

@[simp] theorem laneAdvance_topScore (dt : ℚ) (s : GameState) :
    (laneAdvance dt s).topScore = s.topScore := by
  unfold laneAdvance; split <;> rfl

@[simp] theorem laneAdvance_storedTop (dt : ℚ) (s : GameState) :
    (laneAdvance dt s).storedTop = s.storedTop := by
  unfold laneAdvance; split <;> rfl

@[simp] theorem laneAdvance_persistCount (dt : ℚ) (s : GameState) :
    (laneAdvance dt s).persistCount = s.persistCount := by
  unfold laneAdvance; split <;> rfl

theorem laneAdvance_rest (dt : ℚ) (s : GameState) (h : s.laneDuration ≤ s.laneT) :
    (laneAdvance dt s).playerX = s.laneTargetX ∧ (laneAdvance dt s).laneT = s.laneT := by
  unfold laneAdvance
  rw [if_neg (not_lt.mpr h)]
  exact ⟨rfl, rfl⟩

@[simp] theorem endGame_gameOver (s : GameState) : (endGame s).gameOver = true := by
  simp only [endGame]; split <;> rfl

@[simp] theorem endGame_running (s : GameState) : (endGame s).running = false := by
  simp only [endGame]; split <;> rfl

@[simp] theorem endGame_paused (s : GameState) : (endGame s).paused = s.paused := by
  simp only [endGame]; split <;> rfl

@[simp] theorem endGame_spawnTimer (s : GameState) : (endGame s).spawnTimer = s.spawnTimer := by
  simp only [endGame]; split <;> rfl

@[simp] theorem endGame_spawnInterval (s : GameState) :
    (endGame s).spawnInterval = s.spawnInterval := by
  simp only [endGame]; split <;> rfl

@[simp] theorem endGame_difficulty (s : GameState) : (endGame s).difficulty = s.difficulty := by
  simp only [endGame]; split <;> rfl

@[simp] theorem endGame_speed (s : GameState) : (endGame s).speed = s.speed := by
  simp only [endGame]; split <;> rfl

@[simp] theorem endGame_score (s : GameState) : (endGame s).score = s.score := by
  simp only [endGame]; split <;> rfl

@[simp] theorem endGame_obstacles (s : GameState) : (endGame s).obstacles = s.obstacles := by
  simp only [endGame]; split <;> rfl

@[simp] theorem endGame_blocksSpawned (s : GameState) :
    (endGame s).blocksSpawned = s.blocksSpawned := by
  simp only [endGame]; split <;> rfl

@[simp] theorem simStage_running (p : SpawnParams) (dt : ℚ) (s : GameState) :
    (simStage p dt s).running = s.running := by
  simp only [simStage]; split <;> simp

@[simp] theorem simStage_paused (p : SpawnParams) (dt : ℚ) (s : GameState) :
    (simStage p dt s).paused = s.paused := by
  simp only [simStage]; split <;> simp

@[simp] theorem simStage_gameOver (p : SpawnParams) (dt : ℚ) (s : GameState) :
    (simStage p dt s).gameOver = s.gameOver := by
  simp only [simStage]; split <;> simp

@[simp] theorem simStage_difficulty (p : SpawnParams) (dt : ℚ) (s : GameState) :
    (simStage p dt s).difficulty = s.difficulty + dt * (3 / 100) := by
  simp only [simStage]; split <;> simp

@[simp] theorem simStage_speed (p : SpawnParams) (dt : ℚ) (s : GameState) :
    (simStage p dt s).speed = 6 + (s.difficulty + dt * (3 / 100)) * 4 := by
  simp only [simStage]; split <;> simp

@[simp] theorem simStage_spawnInterval (p : SpawnParams) (dt : ℚ) (s : GameState) :
    (simStage p dt s).spawnInterval =
      max (1 / 2) (6 / 5 - (s.difficulty + dt * (3 / 100)) * (1 / 20)) := by
  simp only [simStage]; split <;> simp

@[simp] theorem simStage_score (p : SpawnParams) (dt : ℚ) (s : GameState) :
    (simStage p dt s).score = s.score + dt * (8 + s.difficulty * 2) := by
  simp only [simStage]; split <;> simp

theorem stepObstacle_landed (dt forward : ℚ) (o : Obstacle) (h : o.landed = true) :
    (stepObstacle dt forward o).landed = true ∧
    (stepObstacle dt forward o).posY = o.posY := by
  unfold stepObstacle
  simp [h]

theorem iterObstacle_landed (l : List (ℚ × ℚ)) (o : Obstacle) (h : o.landed = true) :
    (iterObstacle l o).landed = true ∧ (iterObstacle l o).posY = o.posY := by
  induction l generalizing o with
  | nil => exact ⟨h, rfl⟩
  | cons hd tl ih =>
    have hstep := stepObstacle_landed hd.1 hd.2 o h
    have := ih (stepObstacle hd.1 hd.2 o) hstep.1
    exact ⟨this.1, this.2.trans hstep.2⟩

theorem processRev_mem (dt forward px py pz : ℚ) (l : List Obstacle)
    (o' : Obstacle) (h : o' ∈ (processRev dt forward px py pz l).1) :
    ∃ o ∈ l, o' = stepObstacle dt forward o ∨ o' = o := by
  induction l with
  | nil => simp [processRev] at h
  | cons hd tl ih =>
    unfold processRev at h
    by_cases h1 : 10 < (stepObstacle dt forward hd).posZ
    · rw [if_pos h1] at h
      obtain ⟨o, ho, hc⟩ := ih h
      exact ⟨o, List.mem_cons_of_mem _ ho, hc⟩
    · rw [if_neg h1] at h
      by_cases h2 : intersectsCube (stepObstacle dt forward hd).box px py pz (7 / 10) = true
      · rw [if_pos h2] at h
        rcases List.mem_cons.mp h with h3 | h3
        · exact ⟨hd, List.mem_cons_self _ _, Or.inl h3⟩
        · exact ⟨o', List.mem_cons_of_mem _ h3, Or.inr rfl⟩
      · rw [if_neg h2] at h
        rcases List.mem_cons.mp h with h3 | h3
        · exact ⟨hd, List.mem_cons_self _ _, Or.inl h3⟩
        · obtain ⟨o, ho, hc⟩ := ih h3
          exact ⟨o, List.mem_cons_of_mem _ ho, hc⟩

theorem processRev_hit (dt forward px py pz : ℚ) (l : List Obstacle) :
    (processRev dt forward px py pz l).2 =
      l.any (fun o =>
        !(decide (10 < (stepObstacle dt forward o).posZ)) &&
          intersectsCube (stepObstacle dt forward o).box px py pz (7 / 10)) := by
  induction l with
  | nil => rfl
  | cons hd tl ih =>
    unfold processRev
    by_cases h1 : 10 < (stepObstacle dt forward hd).posZ
    · rw [if_pos h1]
      simp [h1, ih]
    · rw [if_neg h1]
      by_cases h2 : intersectsCube (stepObstacle dt forward hd).box px py pz (7 / 10) = true
      · rw [if_pos h2]
        simp [h1, h2]
      · rw [if_neg h2]
        simp only [Bool.not_eq_true] at h2
        simp [h1, h2, ih]

/-! ### Claim theorems -/

/-- Claim C9: the sphere-vs-AABB collision verdict is invariant under
translating the obstacle's bounding box and the player position by the
same vector. -/
theorem collision_translation_invariant
    (b : Box3) (px py pz vx vy vz r : ℚ) :
    intersectsCube (b.translate vx vy vz) (px + vx) (py + vy) (pz + vz) r =
      intersectsCube b px py pz r := by
  unfold intersectsCube Box3.translate
  simp only [clamp_translate]
  ring_nf

/-- Claim C5: `intersectsCube` holds exactly when the squared Euclidean
distance from the closest point of the axis-aligned box (each player
coordinate clamped to the box on that axis) to the player is below the
squared radius; the obstacle loop's collision flag is true exactly when
some (not removed) stepped obstacle intersects, and in an active frame
that flag is what sends the state to game over. -/
theorem checkCollisions_spec :
    (∀ b px py pz r, intersectsCube b px py pz r = true ↔
      ((specClosestPoint b px py pz).1 - px) ^ 2 +
        ((specClosestPoint b px py pz).2.1 - py) ^ 2 +
        ((specClosestPoint b px py pz).2.2 - pz) ^ 2 < r ^ 2) ∧
    (∀ dt f px py pz l, (processRev dt f px py pz l).2 =
      l.any (fun o =>
        !(decide (10 < (stepObstacle dt f o).posZ)) &&
          intersectsCube (stepObstacle dt f o).box px py pz (7 / 10))) ∧
    (∀ p dt s, s.running = true → s.paused = false → s.gameOver = false →
      ((frameStep p dt s).gameOver = true ↔
        (processRev dt ((simStage p dt s).speed * dt) (simStage p dt s).playerX
          (simStage p dt s).playerY (simStage p dt s).playerZ
          (simStage p dt s).obstacles.reverse).2 = true)) := by
  refine ⟨?_, processRev_hit, ?_⟩
  · intro b px py pz r
    unfold intersectsCube specClosestPoint clamp
    rw [decide_eq_true_eq]
    constructor <;> intro h <;> nlinarith [h]
  · intro p dt s hr hp hg
    simp only [frameStep, hr, hp, hg, Bool.not_true, Bool.false_or, Bool.false_eq_true,
      if_false]
    split
    · next hhit => simp only [simStage_speed] at hhit; simp [hhit]
    · next hhit => simp only [simStage_speed] at hhit; simp [hhit, hg]

/-- Claim C5 witness: in an active fresh run (no obstacles) the frame
does not transition to game over, matching the empty collision scan. -/
theorem checkCollisions_spec_witness :
    (frameStep zeroParams 0 (freshRun 0 0)).gameOver = true ↔
      (processRev 0 ((simStage zeroParams 0 (freshRun 0 0)).speed * 0)
        (simStage zeroParams 0 (freshRun 0 0)).playerX
        (simStage zeroParams 0 (freshRun 0 0)).playerY
        (simStage zeroParams 0 (freshRun 0 0)).playerZ
        (simStage zeroParams 0 (freshRun 0 0)).obstacles.reverse).2 = true :=
  checkCollisions_spec.2.2 zeroParams 0 (freshRun 0 0) rfl rfl rfl

/-- Claim C4: an obstacle that is `Landed` stays `Landed` with its
`positionY` unchanged under any further sequence of physics steps
(the phase never reverses, so Falling→Landed happens at most once),
and the per-frame obstacle loop only ever applies the physics step to an
obstacle, leaves it untouched (when the loop broke early), or removes
it. -/
theorem landed_phase_stable :
    (∀ l o, o.landed = true →
      (iterObstacle l o).landed = true ∧ (iterObstacle l o).posY = o.posY) ∧
    (∀ dt f px py pz l o', o' ∈ (processRev dt f px py pz l).1 →
      ∃ o ∈ l, o' = stepObstacle dt f o ∨ o' = o) :=
  ⟨fun l o h => iterObstacle_landed l o h,
   fun dt f px py pz l o' h => processRev_mem dt f px py pz l o' h⟩

/-- A concrete landed obstacle used by the C4 witness. -/
def restingBox : Obstacle :=
  { laneIndex := 1, width := 1, height := 1, depth := 1, scaleY := 1
    posX := 0, posY := 1, posZ := -5, vy := 0, falling := false, landed := true }

/-- Claim C4 witness: two further frames leave a landed obstacle landed
at the same height. -/
theorem landed_phase_stable_witness :
    (iterObstacle [(1/60, 1), (1/30, 2)] restingBox).landed = true ∧
      (iterObstacle [(1/60, 1), (1/30, 2)] restingBox).posY = restingBox.posY :=
  landed_phase_stable.1 [(1/60, 1), (1/30, 2)] restingBox rfl

theorem iterLane_rest (l : List ℚ) :
    ∀ s : GameState, s.laneDuration ≤ s.laneT → s.playerX = s.laneTargetX →
      (l.foldl (fun t d => laneAdvance d t) s).playerX = s.laneTargetX := by
  induction l with
  | nil => intro s _ hx; simpa using hx
  | cons d tl ih =>
    intro s h hx
    have hr := laneAdvance_rest d s h
    have h2 : (laneAdvance d s).laneDuration ≤ (laneAdvance d s).laneT := by
      rw [laneAdvance_laneDuration, hr.2]; exact h
    have hx2 : (laneAdvance d s).playerX = (laneAdvance d s).laneTargetX := by
      rw [laneAdvance_laneTargetX, hr.1]
    have htl := ih (laneAdvance d s) h2 hx2
    rw [List.foldl_cons, htl, laneAdvance_laneTargetX]

/-- Claim C6: while `elapsedT < duration` a lane advance adds `dt` to
`elapsedT` and places the player's world x by smoothstep easing over
`min(1, elapsedT/duration)` between the start and target offsets; once
`elapsedT ≥ duration` the position is exactly the target offset and
stays there under arbitrarily many further advances. -/
theorem lane_interpolation_spec (dt : ℚ) (s : GameState) :
    (s.laneT < s.laneDuration →
      (laneAdvance dt s).laneT = s.laneT + dt ∧
      (laneAdvance dt s).playerX =
        lerp s.laneStartX s.laneTargetX
          (smoothstepVal (min 1 ((s.laneT + dt) / s.laneDuration)))) ∧
    (s.laneDuration ≤ s.laneT →
      (laneAdvance dt s).playerX = s.laneTargetX ∧ (laneAdvance dt s).laneT = s.laneT) ∧
    (∀ l : List ℚ, s.laneDuration ≤ s.laneT →
      (l.foldl (fun t d => laneAdvance d t) (laneAdvance dt s)).playerX = s.laneTargetX) := by
  refine ⟨?_, laneAdvance_rest dt s, ?_⟩
  · intro h
    unfold laneAdvance
    rw [if_pos h]
    exact ⟨rfl, rfl⟩
  · intro l h
    have hr := laneAdvance_rest dt s h
    have h2 : (laneAdvance dt s).laneDuration ≤ (laneAdvance dt s).laneT := by
      rw [laneAdvance_laneDuration, hr.2]; exact h
    have hx2 : (laneAdvance dt s).playerX = (laneAdvance dt s).laneTargetX := by
      rw [laneAdvance_laneTargetX, hr.1]
    rw [iterLane_rest l (laneAdvance dt s) h2 hx2, laneAdvance_laneTargetX]

/-- A state whose lane interpolation has finished. -/
def restLane : GameState := { freshRun 0 0 with laneT := 1/2 }

/-- Claim C6 witness: at rest an advance leaves the player exactly at
the target offset, and a mid-move advance accrues the clock. -/
theorem lane_interpolation_spec_witness :
    ((laneAdvance (1/60) (freshRun 0 0)).laneT = (freshRun 0 0).laneT + 1/60 ∧
      (laneAdvance (1/60) (freshRun 0 0)).playerX =
        lerp (freshRun 0 0).laneStartX (freshRun 0 0).laneTargetX
          (smoothstepVal (min 1 (((freshRun 0 0).laneT + 1/60) / (freshRun 0 0).laneDuration)))) ∧
    ((laneAdvance (1/60) restLane).playerX = restLane.laneTargetX ∧
      (laneAdvance (1/60) restLane).laneT = restLane.laneT) :=
  ⟨(lane_interpolation_spec (1/60) (freshRun 0 0)).1 (by norm_num [freshRun]),
   (lane_interpolation_spec (1/60) restLane).2.1 (by norm_num [restLane, freshRun])⟩

/-- Claim C2 (amended): a lane-move request is ignored exactly when the
game is over or the destination index would leave `[0, 2]`; in every
other state — including `Idle` and `Paused` — it adds the direction to
the lane index, captures the player's current world x as the new start
offset, targets the destination lane's fixed position and resets the
interpolation clock. -/
theorem tryMoveLane_rules (d : ℤ) (s : GameState) (_hd : d = -1 ∨ d = 1) :
    (s.gameOver = true → tryMoveLane d s = s) ∧
    ((s.laneIndex : ℤ) + d < 0 ∨ 2 < (s.laneIndex : ℤ) + d → tryMoveLane d s = s) ∧
    (s.gameOver = false → 0 ≤ (s.laneIndex : ℤ) + d → (s.laneIndex : ℤ) + d ≤ 2 →
      ((tryMoveLane d s).laneIndex : ℤ) = (s.laneIndex : ℤ) + d ∧
      (tryMoveLane d s).laneStartX = s.playerX ∧
      (tryMoveLane d s).laneTargetX = LANES.getD ((s.laneIndex : ℤ) + d).toNat 0 ∧
      (tryMoveLane d s).laneT = 0 ∧
      (tryMoveLane d s).running = s.running ∧
      (tryMoveLane d s).paused = s.paused ∧
      (tryMoveLane d s).gameOver = s.gameOver) := by
  refine ⟨?_, ?_, ?_⟩
  · intro h; simp [tryMoveLane, h]
  · intro hrange
    by_cases hg : s.gameOver = true
    · simp [tryMoveLane, hg]
    · simp only [Bool.not_eq_true] at hg
      simp [tryMoveLane, hg, hrange]
  · intro hg h0 h2
    have hnot : ¬((s.laneIndex : ℤ) + d < 0 ∨ 2 < (s.laneIndex : ℤ) + d) := by
      push_neg; exact ⟨h0, h2⟩
    simp only [tryMoveLane, hg, Bool.false_eq_true, if_false, if_neg hnot]
    simp [Int.toNat_of_nonneg h0]

/-- Claim C2 witness: a legal move from the centre lane in a live run
updates the four lane fields as specified. -/
theorem tryMoveLane_rules_witness :
    ((tryMoveLane 1 (freshRun 0 0)).laneIndex : ℤ) = ((freshRun 0 0).laneIndex : ℤ) + 1 ∧
    (tryMoveLane 1 (freshRun 0 0)).laneStartX = (freshRun 0 0).playerX ∧
    (tryMoveLane 1 (freshRun 0 0)).laneTargetX =
      LANES.getD (((freshRun 0 0).laneIndex : ℤ) + 1).toNat 0 ∧
    (tryMoveLane 1 (freshRun 0 0)).laneT = 0 ∧
    (tryMoveLane 1 (freshRun 0 0)).running = (freshRun 0 0).running ∧
    (tryMoveLane 1 (freshRun 0 0)).paused = (freshRun 0 0).paused ∧
    (tryMoveLane 1 (freshRun 0 0)).gameOver = (freshRun 0 0).gameOver :=
  (tryMoveLane_rules 1 (freshRun 0 0) (Or.inr rfl)).2.2 rfl
    (by norm_num [freshRun]) (by norm_num [freshRun])

/-- A live run that is currently paused, player in the centre lane. -/
def pausedMid : GameState := { freshRun 0 0 with paused := true }

/-- Claim C2 counterexample: in the `Paused` phase (not `Running`) a
lane-move request is NOT ignored — the source only rejects moves when
`gameOver` is set — so the lane state changes. -/
theorem tryMoveLane_paused_cex :
    pausedMid.phase = Phase.Paused ∧ pausedMid.laneIndex = 1 ∧
    (tryMoveLane (-1) pausedMid).laneIndex = 0 := by
  refine ⟨rfl, rfl, ?_⟩
  simp [tryMoveLane, pausedMid, freshRun]

/-- Claim C3 (amended): at game over the RAW score is compared with the
previous `topScore`; when it exceeds it, the in-memory `topScore`
becomes the raw score and its floor is persisted to the external store
exactly once (otherwise nothing is updated or persisted).  A run ending
at score 120.7 against a prior `topScore` of 100 therefore stores
exactly 120. -/
theorem endGame_topScore_rules (s : GameState) :
    (endGame s).gameOver = true ∧ (endGame s).running = false ∧
    (s.topScore < s.score →
      (endGame s).topScore = s.score ∧
      (endGame s).storedTop = ⌊s.score⌋ ∧
      (endGame s).persistCount = s.persistCount + 1) ∧
    (s.score ≤ s.topScore →
      (endGame s).topScore = s.topScore ∧
      (endGame s).storedTop = s.storedTop ∧
      (endGame s).persistCount = s.persistCount) := by
  refine ⟨endGame_gameOver s, endGame_running s, ?_, ?_⟩
  · intro h; simp [endGame, h]
  · intro h; simp [endGame, h.not_lt]

/-- The spec's game-over scenario: score 120.7, prior top score 100. -/
def run1207 : GameState := { freshRun 100 100 with score := 1207/10 }

/-- Claim C3 witness: the 120.7-vs-100 scenario persists exactly once
and stores exactly 120. -/
theorem endGame_topScore_rules_witness :
    ((endGame run1207).topScore = run1207.score ∧
      (endGame run1207).storedTop = ⌊run1207.score⌋ ∧
      (endGame run1207).persistCount = run1207.persistCount + 1) ∧
    ⌊run1207.score⌋ = 120 ∧ run1207.persistCount = 0 :=
  ⟨(endGame_topScore_rules run1207).2.2.1 (by norm_num [run1207, freshRun]),
   by norm_num [run1207, freshRun, Int.floor_eq_iff], by norm_num [run1207, freshRun]⟩

/-- A run ending at score 100.5 against a prior top score of 100. -/
def edgeRun : GameState := { freshRun 100 100 with score := 201/2 }

/-- Claim C3 counterexample: the claim requires the score to be floored
BEFORE the comparison, so a run at score 100.5 against top score 100
(floored score 100, not greater) should persist nothing; the code
compares the raw score and persists (and overwrites the store). -/
theorem endGame_floor_compare_cex :
    edgeRun.topScore = 100 ∧ ((⌊edgeRun.score⌋ : ℚ)) ≤ edgeRun.topScore ∧
    (endGame edgeRun).persistCount = edgeRun.persistCount + 1 ∧
    (endGame edgeRun).storedTop = 100 := by
  refine ⟨rfl, ?_, ?_, ?_⟩
  · norm_num [edgeRun, freshRun, Int.floor_eq_iff]
  · simp [endGame, edgeRun, freshRun]
    norm_num
  · simp [endGame, edgeRun, freshRun]
    norm_num [Int.floor_eq_iff]

/-- Claim C1 (amended): a falling, not-landed obstacle gains `-25*dt`
vertical velocity, moves by the updated velocity times `dt`, and drifts
forward by `0.3 × forward`; when its new `positionY` is at or below the
resting height `0.5 + scale.y/2` — the constant `1`, since every
spawned mesh keeps the default unit scale, independent of the
obstacle's geometric height — it is clamped there, the phase becomes
`Landed` and the vertical velocity is zeroed; otherwise it keeps
falling with the integrated position and velocity. -/
theorem obstacle_fall_integration :
    (∀ (dt f : ℚ) (o : Obstacle), o.falling = true → o.landed = false →
      ((stepObstacle dt f o).posZ = o.posZ + f * (3 / 10)) ∧
      (o.posY + (o.vy + (-25) * dt) * dt ≤ 1 / 2 + o.scaleY / 2 →
        (stepObstacle dt f o).posY = 1 / 2 + o.scaleY / 2 ∧
        (stepObstacle dt f o).landed = true ∧
        (stepObstacle dt f o).falling = false ∧
        (stepObstacle dt f o).vy = 0) ∧
      (¬(o.posY + (o.vy + (-25) * dt) * dt ≤ 1 / 2 + o.scaleY / 2) →
        (stepObstacle dt f o).posY = o.posY + (o.vy + (-25) * dt) * dt ∧
        (stepObstacle dt f o).vy = o.vy + (-25) * dt ∧
        (stepObstacle dt f o).landed = false ∧
        (stepObstacle dt f o).falling = true)) ∧
    (∀ d q, (spawnObstacle d q).scaleY = 1) := by
  refine ⟨?_, fun d q => rfl⟩
  intro dt f o hf hl
  simp only [stepObstacle, hf, hl, Bool.not_false, Bool.and_self, if_true]
  refine ⟨?_, ?_, ?_⟩
  · split <;> rfl
  · intro h; rw [if_pos h]; exact ⟨rfl, rfl, rfl, rfl⟩
  · intro h; rw [if_neg h]; exact ⟨rfl, rfl, rfl, rfl⟩

/-- A falling obstacle of height 0.8 just above the code's landing
threshold. -/
def fallingBox : Obstacle :=
  { laneIndex := 1, width := 1, height := 4/5, depth := 1, scaleY := 1
    posX := 0, posY := 99/100, posZ := -10, vy := 0, falling := true, landed := false }

/-- Claim C1 witness: the concrete falling obstacle crosses the
threshold in one step and is clamped, landed, with zero velocity. -/
theorem obstacle_fall_integration_witness :
    (stepObstacle (1/100) 0 fallingBox).posY = 1 / 2 + fallingBox.scaleY / 2 ∧
    (stepObstacle (1/100) 0 fallingBox).landed = true ∧
    (stepObstacle (1/100) 0 fallingBox).falling = false ∧
    (stepObstacle (1/100) 0 fallingBox).vy = 0 :=
  (obstacle_fall_integration.1 (1/100) 0 fallingBox rfl rfl).2.1
    (by norm_num [fallingBox])

/-- Claim C1 counterexample: the claim's resting height — ground level
plus half the obstacle's own height, here `0 + 0.8/2 = 0.4` — is never
reached by the integrated position (`0.9875 > 0.4`), yet the code lands
the obstacle and clamps it to `1`, which is not the claimed resting
height. -/
theorem obstacle_resting_height_cex :
    (stepObstacle (1/100) 0 fallingBox).landed = true ∧
    (stepObstacle (1/100) 0 fallingBox).posY = 1 ∧
    specRestingHeight fallingBox = 2/5 ∧
    (stepObstacle (1/100) 0 fallingBox).posY ≠ specRestingHeight fallingBox ∧
    specRestingHeight fallingBox <
      fallingBox.posY + (fallingBox.vy + (-25) * (1/100)) * (1/100) := by
  have hcond : fallingBox.posY + (fallingBox.vy + (-25) * (1/100)) * (1/100) ≤
      1 / 2 + fallingBox.scaleY / 2 := by norm_num [fallingBox]
  simp only [stepObstacle, fallingBox] at hcond ⊢
  norm_num [specRestingHeight, groundLevel]

/-! ### Frame-level characterization of the spawner and difficulty -/

/-- The spawn condition of a frame at delta `dt` from state `s`: the
accumulated timer strictly exceeds the freshly recomputed interval. -/
def spawnFires (dt : ℚ) (s : GameState) : Prop :=
  max (1 / 2) (6 / 5 - (s.difficulty + dt * (3 / 100)) * (1 / 20)) < s.spawnTimer + dt

@[simp] theorem processRev_nil (dt f px py pz : ℚ) :
    processRev dt f px py pz [] = ([], false) := rfl

theorem simStage_spawnTimer_fires (p : SpawnParams) (dt : ℚ) (s : GameState)
    (h : spawnFires dt s) :
    (simStage p dt s).spawnTimer = 0 ∧
    (simStage p dt s).blocksSpawned = s.blocksSpawned + 1 ∧
    (simStage p dt s).obstacles =
      s.obstacles ++ [spawnObstacle (s.difficulty + dt * (3 / 100)) p] := by
  unfold spawnFires at h
  simp only [simStage, laneAdvance_spawnTimer]
  rw [if_pos h]
  simp

theorem simStage_spawnTimer_calm (p : SpawnParams) (dt : ℚ) (s : GameState)
    (h : ¬spawnFires dt s) :
    (simStage p dt s).spawnTimer = s.spawnTimer + dt ∧
    (simStage p dt s).blocksSpawned = s.blocksSpawned ∧
    (simStage p dt s).obstacles = s.obstacles := by
  unfold spawnFires at h
  simp only [simStage, laneAdvance_spawnTimer]
  rw [if_neg h]
  simp

theorem frameStep_inactive (p : SpawnParams) (dt : ℚ) (s : GameState)
    (h : ¬(s.running = true ∧ s.paused = false ∧ s.gameOver = false)) :
    frameStep p dt s = s := by
  by_cases hr : s.running = true
  · by_cases hp : s.paused = true
    · simp [frameStep, hp]
    · simp only [Bool.not_eq_true] at hp
      by_cases hg : s.gameOver = true
      · simp [frameStep, hr, hp, hg]
      · simp only [Bool.not_eq_true] at hg
        exact absurd ⟨hr, hp, hg⟩ h
  · simp only [Bool.not_eq_true] at hr
    simp [frameStep, hr]

theorem frameStep_active_proj (p : SpawnParams) (dt : ℚ) (s : GameState)
    (hr : s.running = true) (hp : s.paused = false) (hg : s.gameOver = false) :
    (frameStep p dt s).difficulty = s.difficulty + dt * (3 / 100) ∧
    (frameStep p dt s).speed = 6 + (s.difficulty + dt * (3 / 100)) * 4 ∧
    (frameStep p dt s).spawnInterval =
      max (1 / 2) (6 / 5 - (s.difficulty + dt * (3 / 100)) * (1 / 20)) ∧
    (frameStep p dt s).score = s.score + dt * (8 + s.difficulty * 2) ∧
    (frameStep p dt s).spawnTimer = (simStage p dt s).spawnTimer ∧
    (frameStep p dt s).blocksSpawned = (simStage p dt s).blocksSpawned := by
  simp only [frameStep, hr, hp, hg, Bool.not_true, Bool.false_or, Bool.false_eq_true,
    if_false]
  split <;> simp

theorem frameStep_blocks_fires (p : SpawnParams) (dt : ℚ) (s : GameState)
    (hr : s.running = true) (hp : s.paused = false) (hg : s.gameOver = false)
    (hf : spawnFires dt s) :
    (frameStep p dt s).blocksSpawned = s.blocksSpawned + 1 ∧
    (frameStep p dt s).spawnTimer = 0 := by
  have hproj := frameStep_active_proj p dt s hr hp hg
  have hstage := simStage_spawnTimer_fires p dt s hf
  exact ⟨hproj.2.2.2.2.2.trans hstage.2.1, hproj.2.2.2.2.1.trans hstage.1⟩

theorem frameStep_blocks_calm (p : SpawnParams) (dt : ℚ) (s : GameState)
    (hr : s.running = true) (hp : s.paused = false) (hg : s.gameOver = false)
    (hf : ¬spawnFires dt s) :
    (frameStep p dt s).blocksSpawned = s.blocksSpawned ∧
    (frameStep p dt s).spawnTimer = s.spawnTimer + dt := by
  have hproj := frameStep_active_proj p dt s hr hp hg
  have hstage := simStage_spawnTimer_calm p dt s hf
  exact ⟨hproj.2.2.2.2.2.trans hstage.2.1, hproj.2.2.2.2.1.trans hstage.1⟩

theorem frameStep_empty_calm (p : SpawnParams) (dt : ℚ) (s : GameState)
    (hr : s.running = true) (hp : s.paused = false) (hg : s.gameOver = false)
    (hobs : s.obstacles = []) (hf : ¬spawnFires dt s) :
    (frameStep p dt s).running = true ∧
    (frameStep p dt s).paused = false ∧
    (frameStep p dt s).gameOver = false ∧
    (frameStep p dt s).obstacles = [] := by
  have hstage := (simStage_spawnTimer_calm p dt s hf).2.2.trans hobs
  simp only [frameStep, hr, hp, hg, Bool.not_true, Bool.false_or, Bool.false_eq_true,
    if_false]
  simp [hstage, hr, hp, hg]

theorem step_timer_small (p : SpawnParams) (dt : ℚ) (s : GameState)
    (h0 : 0 ≤ dt) (h : s.spawnTimer + dt ≤ 1 / 2) :
    (frameStep p dt s).blocksSpawned = s.blocksSpawned ∧
    (frameStep p dt s).spawnTimer ≤ s.spawnTimer + dt := by
  have hnf : ¬spawnFires dt s := by
    unfold spawnFires
    push_neg
    exact le_trans h (le_max_left _ _)
  by_cases hact : s.running = true ∧ s.paused = false ∧ s.gameOver = false
  · have hc := frameStep_blocks_calm p dt s hact.1 hact.2.1 hact.2.2 hnf
    exact ⟨hc.1, le_of_eq hc.2⟩
  · rw [frameStep_inactive p dt s hact]
    exact ⟨rfl, by linarith⟩

theorem step_blocks_ge (p : SpawnParams) (dt : ℚ) (s : GameState) :
    s.blocksSpawned ≤ (frameStep p dt s).blocksSpawned := by
  by_cases hact : s.running = true ∧ s.paused = false ∧ s.gameOver = false
  · by_cases hf : spawnFires dt s
    · rw [(frameStep_blocks_fires p dt s hact.1 hact.2.1 hact.2.2 hf).1]
      exact Nat.le_succ _
    · rw [(frameStep_blocks_calm p dt s hact.1 hact.2.1 hact.2.2 hf).1]
  · rw [frameStep_inactive p dt s hact]

theorem step_blocks_le (p : SpawnParams) (dt : ℚ) (s : GameState) :
    (frameStep p dt s).blocksSpawned ≤ s.blocksSpawned + 1 := by
  by_cases hact : s.running = true ∧ s.paused = false ∧ s.gameOver = false
  · by_cases hf : spawnFires dt s
    · rw [(frameStep_blocks_fires p dt s hact.1 hact.2.1 hact.2.2 hf).1]
    · rw [(frameStep_blocks_calm p dt s hact.1 hact.2.1 hact.2.2 hf).1]
      exact Nat.le_succ _
  · rw [frameStep_inactive p dt s hact]
    exact Nat.le_succ _

theorem step_blocks_change (p : SpawnParams) (dt : ℚ) (s : GameState)
    (h : (frameStep p dt s).blocksSpawned ≠ s.blocksSpawned) :
    (s.running = true ∧ s.paused = false ∧ s.gameOver = false) ∧ spawnFires dt s := by
  by_cases hact : s.running = true ∧ s.paused = false ∧ s.gameOver = false
  · by_cases hf : spawnFires dt s
    · exact ⟨hact, hf⟩
    · exact absurd (frameStep_blocks_calm p dt s hact.1 hact.2.1 hact.2.2 hf).1 h
  · rw [frameStep_inactive p dt s hact] at h
    exact absurd rfl h

theorem runSeq_nil (s : GameState) : runSeq [] s = s := rfl

theorem runSeq_cons (x : SpawnParams × ℚ) (l : List (SpawnParams × ℚ)) (s : GameState) :
    runSeq (x :: l) s = runSeq l (frameStep x.1 x.2 s) := rfl

theorem runSeq_blocks_ge (l : List (SpawnParams × ℚ)) :
    ∀ s : GameState, s.blocksSpawned ≤ (runSeq l s).blocksSpawned := by
  induction l with
  | nil => intro s; exact le_rfl
  | cons x tl ih =>
    intro s
    rw [runSeq_cons]
    exact le_trans (step_blocks_ge x.1 x.2 s) (ih _)

theorem runSeq_timer_le (l : List (SpawnParams × ℚ)) :
    ∀ s : GameState, (∀ x ∈ l, 0 ≤ x.2) →
      (runSeq l s).blocksSpawned = s.blocksSpawned →
      (runSeq l s).spawnTimer ≤ s.spawnTimer + (l.map Prod.snd).sum := by
  induction l with
  | nil => intro s _ _; simp [runSeq_nil]
  | cons x tl ih =>
    intro s hpos hcount
    rw [runSeq_cons] at hcount ⊢
    have hx : 0 ≤ x.2 := hpos x (List.mem_cons_self _ _)
    have hmid : (frameStep x.1 x.2 s).blocksSpawned = s.blocksSpawned := by
      have h1 := step_blocks_ge x.1 x.2 s
      have h2 := runSeq_blocks_ge tl (frameStep x.1 x.2 s)
      omega
    have hstep : (frameStep x.1 x.2 s).spawnTimer ≤ s.spawnTimer + x.2 := by
      by_cases hact : s.running = true ∧ s.paused = false ∧ s.gameOver = false
      · by_cases hf : spawnFires x.2 s
        · exact absurd (frameStep_blocks_fires x.1 x.2 s hact.1 hact.2.1 hact.2.2 hf).1
            (by omega)
        · exact le_of_eq (frameStep_blocks_calm x.1 x.2 s hact.1 hact.2.1 hact.2.2 hf).2
      · rw [frameStep_inactive x.1 x.2 s hact]; linarith
    have htail := ih (frameStep x.1 x.2 s)
      (fun y hy => hpos y (List.mem_cons_of_mem _ hy)) (by omega)
    calc (runSeq tl (frameStep x.1 x.2 s)).spawnTimer
        ≤ (frameStep x.1 x.2 s).spawnTimer + (tl.map Prod.snd).sum := htail
      _ ≤ s.spawnTimer + x.2 + (tl.map Prod.snd).sum := by linarith
      _ = s.spawnTimer + ((x :: tl).map Prod.snd).sum := by
          rw [List.map_cons, List.sum_cons]; ring

/-- Claim C7: the difficulty starts at 1, is frozen by a paused frame,
and in a running frame advances by `0.03·dt` (hence is non-decreasing
for `dt ≥ 0`); the same frame derives `fallSpeed = 6 + 4·difficulty`,
`spawnInterval = max(0.5, 1.2 − 0.05·difficulty)` from the updated
difficulty, and accrues `dt·(8 + 2·difficulty)` score at the
difficulty the frame started with. -/
theorem difficulty_curve_spec :
    (∀ (t : ℚ) (st : ℤ), (freshRun t st).difficulty = 1) ∧
    (∀ (p : SpawnParams) (dt : ℚ) (s : GameState),
      s.paused = true → frameStep p dt s = s) ∧
    (∀ (p : SpawnParams) (dt : ℚ) (s : GameState),
      s.running = true → s.paused = false → s.gameOver = false →
      (frameStep p dt s).difficulty = s.difficulty + dt * (3 / 100) ∧
      (0 ≤ dt → s.difficulty ≤ (frameStep p dt s).difficulty) ∧
      (frameStep p dt s).speed = 6 + 4 * (frameStep p dt s).difficulty ∧
      (frameStep p dt s).spawnInterval =
        max (1 / 2) (6 / 5 - (1 / 20) * (frameStep p dt s).difficulty) ∧
      (frameStep p dt s).score = s.score + dt * (8 + 2 * s.difficulty)) := by
  refine ⟨fun t st => rfl, fun p dt s hp => by simp [frameStep, hp], ?_⟩
  intro p dt s hr hp hg
  have hproj := frameStep_active_proj p dt s hr hp hg
  refine ⟨hproj.1, ?_, ?_, ?_, ?_⟩
  · intro hdt; rw [hproj.1]; nlinarith
  · rw [hproj.2.1, hproj.1]; ring
  · rw [hproj.2.2.1, hproj.1]; ring_nf
  · rw [hproj.2.2.2.1]; ring

/-- Claim C7 witness: a paused frame is the identity, and an active
fresh-run frame advances difficulty by `0.03·dt`. -/
theorem difficulty_curve_spec_witness :
    frameStep zeroParams (1/60) pausedMid = pausedMid ∧
    (frameStep zeroParams (1/60) (freshRun 0 0)).difficulty =
      (freshRun 0 0).difficulty + (1/60) * (3 / 100) :=
  ⟨difficulty_curve_spec.2.1 zeroParams (1/60) pausedMid rfl,
   (difficulty_curve_spec.2.2 zeroParams (1/60) (freshRun 0 0) rfl rfl rfl).1⟩

/-- Claim C10: a single frame spawns at most one obstacle however large
the delta; a frame that spawned reset the timer to 0 (discarding any
overshoot); and any later frame that spawns again after a spawn-reset
does so only once the deltas accumulated since then exceed the spawn
interval in force at that frame, which is itself at least 0.5. -/
theorem spawn_rate_limited :
    (∀ (p : SpawnParams) (dt : ℚ) (s : GameState),
      (frameStep p dt s).blocksSpawned ≤ s.blocksSpawned + 1) ∧
    (∀ (p : SpawnParams) (dt : ℚ) (s : GameState),
      (frameStep p dt s).blocksSpawned ≠ s.blocksSpawned →
      (frameStep p dt s).spawnTimer = 0) ∧
    (∀ (l : List (SpawnParams × ℚ)) (p : SpawnParams) (d : ℚ) (s : GameState),
      s.spawnTimer = 0 → (∀ x ∈ l, 0 ≤ x.2) → 0 ≤ d →
      (runSeq l s).blocksSpawned = s.blocksSpawned →
      (frameStep p d (runSeq l s)).blocksSpawned ≠ (runSeq l s).blocksSpawned →
      1 / 2 ≤ (frameStep p d (runSeq l s)).spawnInterval ∧
      (frameStep p d (runSeq l s)).spawnInterval < (l.map Prod.snd).sum + d) := by
  refine ⟨fun p dt s => step_blocks_le p dt s, ?_, ?_⟩
  · intro p dt s h
    obtain ⟨hact, hf⟩ := step_blocks_change p dt s h
    exact (frameStep_blocks_fires p dt s hact.1 hact.2.1 hact.2.2 hf).2
  · intro l p d s ht0 hpos hd hsame hchange
    obtain ⟨hact, hf⟩ := step_blocks_change p d (runSeq l s) hchange
    have hint := (frameStep_active_proj p d (runSeq l s) hact.1 hact.2.1 hact.2.2).2.2.1
    have htimer := runSeq_timer_le l s hpos hsame
    rw [ht0] at htimer
    unfold spawnFires at hf
    constructor
    · rw [hint]; exact le_max_left _ _
    · rw [hint]; linarith

/-- Claim C10 witness: one frame with a huge delta from a fresh run
spawns exactly one obstacle and resets the timer, and the separation
bound holds for it after an empty quiet stretch. -/
theorem spawn_rate_limited_witness :
    (frameStep zeroParams 100 (freshRun 0 0)).blocksSpawned ≤
      (freshRun 0 0).blocksSpawned + 1 ∧
    (1 / 2 ≤ (frameStep zeroParams 100 (runSeq [] (freshRun 0 0))).spawnInterval ∧
      (frameStep zeroParams 100 (runSeq [] (freshRun 0 0))).spawnInterval <
        (([] : List (SpawnParams × ℚ)).map Prod.snd).sum + 100) :=
  ⟨spawn_rate_limited.1 zeroParams 100 (freshRun 0 0),
   spawn_rate_limited.2.2 [] zeroParams 100 (freshRun 0 0) rfl (by simp) (by norm_num)
     rfl
     (by
       have hf : spawnFires 100 (freshRun 0 0) := by
         unfold spawnFires freshRun
         refine max_lt (by norm_num) (by norm_num)
       have := frameStep_blocks_fires zeroParams 100 (freshRun 0 0) rfl rfl rfl hf
       rw [runSeq_nil, this.1]
       simp [freshRun])⟩

/-- The invariant of the first 71 frames of the C8 scenario: still
running, nothing spawned, timer and difficulty advanced linearly. -/
def c8inv (n : ℕ) (s : GameState) : Prop :=
  s.running = true ∧ s.paused = false ∧ s.gameOver = false ∧
  s.obstacles = [] ∧ s.blocksSpawned = 0 ∧
  s.spawnTimer = n * (2 / 125) ∧ s.difficulty = 1 + n * (3 / 6250)

theorem c8inv_zero (t : ℚ) (st : ℤ) : c8inv 0 (freshRun t st) := by
  refine ⟨rfl, rfl, rfl, rfl, rfl, ?_, ?_⟩ <;> norm_num [freshRun]

theorem c8_nofire (n : ℕ) (s : GameState) (h : c8inv n s)
    (hn : (n : ℚ) + 1 ≤ 71) : ¬spawnFires (2 / 125) s := by
  obtain ⟨-, -, -, -, -, ht, hd⟩ := h
  unfold spawnFires
  rw [ht, hd]
  push_neg
  refine le_trans ?_ (le_max_right _ _)
  linarith

theorem c8_step (p : SpawnParams) (n : ℕ) (s : GameState) (h : c8inv n s)
    (hn : (n : ℚ) + 1 ≤ 71) : c8inv (n + 1) (frameStep p (2 / 125) s) := by
  have hnf := c8_nofire n s h hn
  obtain ⟨hr, hp, hg, hobs, hb, ht, hd⟩ := h
  have hflag := frameStep_empty_calm p (2 / 125) s hr hp hg hobs hnf
  have hcalm := frameStep_blocks_calm p (2 / 125) s hr hp hg hnf
  have hdiff := (frameStep_active_proj p (2 / 125) s hr hp hg).1
  refine ⟨hflag.1, hflag.2.1, hflag.2.2.1, hflag.2.2.2, hcalm.1.trans hb, ?_, ?_⟩
  · rw [hcalm.2, ht]; push_cast; ring
  · rw [hdiff, hd]; push_cast; ring

theorem c8_chain (oracle : ℕ → SpawnParams) (t : ℚ) (st : ℤ) :
    ∀ n : ℕ, n ≤ 71 → c8inv n (stepN oracle (2 / 125) n (freshRun t st)) := by
  intro n
  induction n with
  | zero => intro _; exact c8inv_zero t st
  | succ k ih =>
    intro hk
    have hq : (k : ℚ) + 1 ≤ 71 := by
      have : (k : ℕ) + 1 ≤ 71 := hk
      exact_mod_cast this
    exact c8_step (oracle k) k _ (ih (by omega)) hq

/-- Claim C8: from a fresh run (difficulty 1, spawn interval 1.2,
empty world), 75 frames at a constant `dt = 0.016` with no input spawn
exactly one obstacle, whatever random draws the spawner makes. -/
theorem spawn_scenario_75_frames (oracle : ℕ → SpawnParams) (t : ℚ) (st : ℤ) :
    (stepN oracle (2 / 125) 75 (freshRun t st)).blocksSpawned = 1 := by
  obtain ⟨hr, hp, hg, hobs, hb0, ht71, hd71⟩ := c8_chain oracle t st 71 le_rfl
  set s71 := stepN oracle (2 / 125) 71 (freshRun t st) with hs71
  have hfire : spawnFires (2 / 125) s71 := by
    unfold spawnFires
    rw [ht71, hd71]
    refine max_lt (by norm_num) (by norm_num)
  have h72 := frameStep_blocks_fires (oracle 71) (2 / 125) s71 hr hp hg hfire
  have hb72 : (frameStep (oracle 71) (2 / 125) s71).blocksSpawned = 1 := by
    rw [h72.1, hb0]
  have st73 := step_timer_small (oracle 72) (2 / 125)
    (frameStep (oracle 71) (2 / 125) s71) (by norm_num) (by rw [h72.2]; norm_num)
  have ht73 : (frameStep (oracle 72) (2 / 125)
      (frameStep (oracle 71) (2 / 125) s71)).spawnTimer ≤ 2 / 125 := by
    have := st73.2; rw [h72.2] at this; linarith
  have st74 := step_timer_small (oracle 73) (2 / 125)
    (frameStep (oracle 72) (2 / 125) (frameStep (oracle 71) (2 / 125) s71))
    (by norm_num) (by linarith)
  have ht74 : (frameStep (oracle 73) (2 / 125) (frameStep (oracle 72) (2 / 125)
      (frameStep (oracle 71) (2 / 125) s71))).spawnTimer ≤ 4 / 125 := by
    have := st74.2; linarith
  have st75 := step_timer_small (oracle 74) (2 / 125)
    (frameStep (oracle 73) (2 / 125) (frameStep (oracle 72) (2 / 125)
      (frameStep (oracle 71) (2 / 125) s71))) (by norm_num) (by linarith)
  show (frameStep (oracle 74) (2 / 125) (frameStep (oracle 73) (2 / 125)
    (frameStep (oracle 72) (2 / 125) (frameStep (oracle 71) (2 / 125) s71)))).blocksSpawned = 1
  rw [st75.1, st74.1, st73.1, hb72]

end FallingLanes
